import Mathlib

/-!
# Verification of the voice orchestration layer

Shallow embedding of the repository's three components and proofs of the
specification claims about them:

* `LavaNode` (NodeConnection) — `src/src/structures/LavaNode.js`, first revision:
  WebSocket lifecycle, inbound frame handling, statistics snapshot, reconnect
  scheduling, `send`.
* `LavaPlayer` (PlayerSession) — `src/unnamed/part_000`, documented revision
  (the one with `paused`, `seek`, `end`, `exception`, `stuck`).
* `LavaLink` (Router) — `src/unnamed/part_003`, documented revision:
  `createNode`, `removeNode`, `message` (demultiplex), `join`, `leave`,
  `spawnPlayer`.

JavaScript objects are embedded as `JVal` (an acyclic JSON-like value);
`Object.assign` is `objAssign` over association lists.  Event emission is
modelled by returning the list of emitted signals; `setTimeout` is modelled by
returning/accumulating scheduled timer records that a separate `fire` step
consumes.  Single-threaded semantics lets every handler be a pure function
from state to state × outputs.
-/

namespace Voice

/-- JSON-like values: the payloads travelling over the control channel.
Acyclic by construction (as every `JSON.parse` result is). -/
inductive JVal where
  | str (s : String)
  | num (n : Int)
  | bool (b : Bool)
  | null
  | obj (fields : List (String × JVal))
  | arr (elems : List JVal)

/-- First-match association-list lookup: reading `o[k]` on a JS object
(`undefined` becomes `none`). -/
def jget : List (String × JVal) → String → Option JVal
  | [], _ => none
  | (k, v) :: rest, key => if k = key then some v else jget rest key

/-- Property read `v.k` on an arbitrary value: `undefined` (`none`) unless the
value is an object carrying the key. -/
def jprop (v : JVal) (key : String) : Option JVal :=
  match v with
  | .obj fields => jget fields key
  | _ => none

/-- Assignment `o[k] = v` on a JS object: overwrite the existing entry for the
key, or append a fresh one. -/
def jset (fields : List (String × JVal)) (key : String) (v : JVal) :
    List (String × JVal) :=
  match fields with
  | [] => [(key, v)]
  | (k, w) :: rest =>
      if k = key then (k, v) :: rest else (k, w) :: jset rest key v

/-- `Object.assign(base, src)`: copy the source's own properties onto the base
in order, later writes overriding earlier ones. -/
def objAssign (base src : List (String × JVal)) : List (String × JVal) :=
  src.foldl (fun acc kv => jset acc kv.1 kv.2) base

/-- JS truthiness of a `JVal` (`!data`): `null`, `0`, `""` and `false` are
falsy, every other JSON value is truthy. -/
def jtruthy : JVal → Bool
  | .str s => s ≠ ""
  | .num n => n ≠ 0
  | .bool b => b
  | .null => false
  | .obj _ => true
  | .arr _ => true

/-! ## PlayerSession (`LavaPlayer`, src/unnamed/part_000, documented revision) -/

/-- Signals a `LavaPlayer` emits to its observers. -/
inductive PlayerSignal where
  | endSig (message : JVal)
  | errorSig (message : JVal)
  | warn (info : String)

/-- Options passed to the `LavaPlayer` constructor.  The `node` field is the
(possibly missing) bound NodeConnection, identified here by its host key. -/
structure PlayerOptions where
  node : Option String
  guild : String
  channel : String
deriving Repr, DecidableEq

/-- The per-guild playback state machine.  Fields mirror the constructor of
`LavaPlayer` exactly: `ready`, `playing`, `paused` start false, `state` starts
`{}`, `track` starts `null`, `timestamp` is the creation instant. -/
structure LavaPlayer where
  node : Option String
  guild : String
  channel : String
  ready : Bool
  playing : Bool
  paused : Bool
  state : JVal
  track : Option String
  timestamp : Nat

/-- `new LavaPlayer(options)` at instant `now`. -/
def LavaPlayer.init (options : PlayerOptions) (now : Nat) : LavaPlayer where
  node := options.node
  guild := options.guild
  channel := options.channel
  ready := false
  playing := false
  paused := false
  state := .obj []
  track := none
  timestamp := now

/-- Result of running one player operation: the updated player, the payloads
handed to `node.send` (in order), and the signals emitted (in order). -/
structure PlayerStep where
  player : LavaPlayer
  sent : List JVal
  signals : List PlayerSignal

/-- `connect(data)`: send a `voiceUpdate` carrying the guild id, session id and
raw voice-server event. -/
def LavaPlayer.connect (p : LavaPlayer) (session : JVal) (event : JVal) :
    PlayerStep where
  player := p
  sent := [.obj [("op", .str "voiceUpdate"), ("guildId", .str p.guild),
                 ("sessionId", session), ("event", event)]]
  signals := []

/-- `play(track, options)`: set the track, send
`Object.assign({op:"play", guildId, track}, options)`, set playing, refresh the
timestamp. -/
def LavaPlayer.play (p : LavaPlayer) (track : String)
    (options : List (String × JVal)) (now : Nat) : PlayerStep where
  player := { p with track := some track, playing := true, timestamp := now }
  sent := [.obj (objAssign
    [("op", .str "play"), ("guildId", .str p.guild), ("track", .str track)]
    options)]
  signals := []

/-- `stop()`: send `stop{guildId}` and clear `playing` and `track`. -/
def LavaPlayer.stop (p : LavaPlayer) : PlayerStep where
  player := { p with playing := false, track := none }
  sent := [.obj [("op", .str "stop"), ("guildId", .str p.guild)]]
  signals := []

/-- `pause(pause)`: no-op when the flag already matches `paused`
(`(pause && this.paused) || (!pause && !this.paused)`), otherwise send
`pause{guildId, pause}` and update `paused`. -/
def LavaPlayer.pause (p : LavaPlayer) (flag : Bool) : PlayerStep :=
  if (flag && p.paused) || (!flag && !p.paused) then
    { player := p, sent := [], signals := [] }
  else
    { player := { p with paused := flag }
      sent := [.obj [("op", .str "pause"), ("guildId", .str p.guild),
                     ("pause", .bool flag)]]
      signals := [] }

/-- `volume(volume)`: send `volume{guildId, volume}`; no cached state. -/
def LavaPlayer.volume (p : LavaPlayer) (v : JVal) : PlayerStep where
  player := p
  sent := [.obj [("op", .str "volume"), ("guildId", .str p.guild),
                 ("volume", v)]]
  signals := []

/-- `seek(position)`: send `seek{guildId, position}`; no cached state. -/
def LavaPlayer.seek (p : LavaPlayer) (position : JVal) : PlayerStep where
  player := p
  sent := [.obj [("op", .str "seek"), ("guildId", .str p.guild),
                 ("position", position)]]
  signals := []

/-- `end(message)` (named `onEnd` because `end` is a Lean keyword): unless
`message.reason === "REPLACED"`, clear `playing` and `track`; always emit one
`end` signal carrying the message. -/
def LavaPlayer.onEnd (p : LavaPlayer) (message : JVal) : PlayerStep where
  player :=
    match jprop message "reason" with
    | some (.str "REPLACED") => p
    | _ => { p with playing := false, track := none }
  sent := []
  signals := [.endSig message]

/-- `exception(message)`: emit one `error` signal carrying the message. -/
def LavaPlayer.exception (p : LavaPlayer) (message : JVal) : PlayerStep where
  player := p
  sent := []
  signals := [.errorSig message]

/-- `stuck(message)`: call `stop()`, then emit an `end` signal carrying the
message. -/
def LavaPlayer.stuck (p : LavaPlayer) (message : JVal) : PlayerStep :=
  let s := p.stop
  { player := s.player, sent := s.sent, signals := s.signals ++ [.endSig message] }

/-! ## NodeConnection (`LavaNode`, src/src/structures/LavaNode.js, first revision) -/

/-- Signals a `LavaNode` emits to its observers. -/
inductive NodeSignal where
  | ready
  | message (data : JVal)
  | error (e : String)
  | disconnect (reason : String)
  | reconnecting

/-- Options passed to the `LavaNode` constructor.  Numeric fields are optional
because the constructor defaults them with `||`. -/
structure NodeOptions where
  gateway : String
  user : String
  shards : Option Nat
  password : String
  reconnectInterval : Option Nat

/-- JS `x || d` on an optional number: `undefined` and `0` are falsy, so both
fall through to the default. -/
def jsOrNat (x : Option Nat) (d : Nat) : Nat :=
  match x with
  | some n => if n = 0 then d else n
  | none => d

/-- The state of one NodeConnection.  `wsPresent` models whether `this.ws`
holds a socket object (it is `null` only before construction finishes and
after a normal close); `reconnectTimers` holds the delays of the `setTimeout`
calls made by `_reconnect` that have not yet fired — the source stores no
handle for them, so nothing can ever cancel one. -/
structure NodeState where
  gateway : String
  user : String
  shards : Nat
  password : String
  reconnectInterval : Nat
  wsPresent : Bool
  ready : Bool
  stats : JVal
  reconnectTimers : List Nat

/-- `_connect()`: allocate a fresh WebSocket into `this.ws`.  Readiness is only
set later by the `open` handler. -/
def nodeConnectWS (s : NodeState) : NodeState := { s with wsPresent := true }

/-- `new LavaNode(options)`: record the options (with `|| 1` and `|| 10000`
defaults), zero statistics, then call `_connect()`.  `this.ready` is unset
(undefined, hence falsy) until `_ready` runs. -/
def nodeInit (options : NodeOptions) : NodeState :=
  nodeConnectWS
    { gateway := "ws://" ++ options.gateway
      user := options.user
      shards := jsOrNat options.shards 1
      password := options.password
      reconnectInterval := jsOrNat options.reconnectInterval 10000
      wsPresent := false
      ready := false
      stats := .obj [("players", .num 0), ("playingPlayers", .num 0)]
      reconnectTimers := [] }

/-- `_ready()`: set readiness and emit `ready`. -/
def nodeReady (s : NodeState) : NodeState × List NodeSignal :=
  ({ s with ready := true }, [.ready])

/-- An inbound WebSocket frame as seen after `JSON.parse`: either the parse
threw (malformed text) or it produced a value. -/
inductive Frame where
  | malformed (err : String)
  | parsed (data : JVal)

/-- `_message(message)`: on parse failure emit `error`; on a falsy parse result
return silently; if `data.op === "stats"` replace `this.stats` wholesale with
the payload; in every non-falsy case emit `message` carrying the payload
(there is no `else` before the emit — stats frames are forwarded too). -/
def nodeMessage (s : NodeState) (frame : Frame) : NodeState × List NodeSignal :=
  match frame with
  | .malformed e => (s, [.error e])
  | .parsed data =>
      if jtruthy data then
        match jprop data "op" with
        | some (.str "stats") => ({ s with stats := data }, [.message data])
        | _ => (s, [.message data])
      else (s, [])

/-- `_reconnect()`: `setTimeout(..., this.reconnectInterval)` — schedule one
timer; the timer's body (emit `reconnecting`, then `_connect()`) runs when the
timer fires.  The source discards the timer handle. -/
def nodeReconnect (s : NodeState) : NodeState :=
  { s with reconnectTimers := s.reconnectTimers ++ [s.reconnectInterval] }

/-- The body of the `setTimeout` scheduled by `_reconnect`, run when the timer
fires: emit `reconnecting`, then `_connect()` (which re-opens the socket). -/
def fireReconnectTimer (s : NodeState) : NodeState × List NodeSignal :=
  (nodeConnectWS { s with reconnectTimers := s.reconnectTimers.drop 1 },
   [.reconnecting])

/-- `_close(code, reason)`: clear readiness; on any code other than 1000 call
`_reconnect()` and return; on a normal close release the handle and emit the
terminal `disconnect` signal. -/
def nodeClose (s : NodeState) (code : Int) (reason : String) :
    NodeState × List NodeSignal :=
  let s1 := { s with ready := false }
  if code ≠ 1000 then (nodeReconnect s1, [])
  else ({ s1 with wsPresent := false }, [.disconnect reason])

/-- What one `send` call does, besides state/signals: hand a serialized payload
to the socket, or throw a synchronous `TypeError` (reading `.send` off a null
`this.ws`). -/
inductive SendResult where
  | sent (payload : JVal)
  | threw

/-- `send(data)`: `JSON.stringify(data)` inside a `try` — on an acyclic JSON
value (every `JVal`) stringify cannot throw, so the catch branch (emit `error`
and return) is unreachable and `sent` carries the value whose serialization
went to the wire.  Then `return this.ws.send(payload)` with **no null check**:
when `this.ws` is `null` this line throws a synchronous `TypeError`. -/
def nodeSend (s : NodeState) (data : JVal) :
    NodeState × List NodeSignal × SendResult :=
  if s.wsPresent then (s, [], .sent data) else (s, [], .threw)

/-! ## Router (`LavaLink`, src/unnamed/part_003, documented revision) -/

/-- First-match lookup in a keyed collection (`Map.get`). -/
def mapGet {α : Type} : List (String × α) → String → Option α
  | [], _ => none
  | (k, v) :: rest, key => if k = key then some v else mapGet rest key

/-- `Map.set`: overwrite the entry for the key or append a fresh one. -/
def mapSet {α : Type} (m : List (String × α)) (key : String) (v : α) :
    List (String × α) :=
  match m with
  | [] => [(key, v)]
  | (k, w) :: rest =>
      if k = key then (k, v) :: rest else (k, w) :: mapSet rest key v

/-- `Map.delete`: drop the entry for the key. -/
def mapDelete {α : Type} (m : List (String × α)) (key : String) :
    List (String × α) :=
  match m with
  | [] => []
  | (k, w) :: rest =>
      if k = key then rest else (k, w) :: mapDelete rest key

/-- A registry entry: the NodeConnection object plus whether the router's
`message`/`error` subscriptions are attached (`removeAllListeners` clears
them). -/
structure NodeRec where
  conn : NodeState
  listeners : Bool

/-- Router state.  `detached` holds NodeConnection objects that were removed
from the registry but are still alive on the JS heap — the closure of a
pending `setTimeout` scheduled by `_reconnect` keeps such an object reachable,
and its timers still fire. -/
structure LinkState where
  nodes : List (String × NodeRec)
  detached : List NodeRec
  players : List (String × LavaPlayer)

/-- Options passed to `LavaLink#createNode`. -/
structure LinkNodeOptions where
  gateway : String
  shards : Option Nat
  user : String
  password : String
  host : String

/-- `createNode(options)`: construct a LavaNode (no `reconnectInterval` is
passed, so it defaults), subscribe `error` and `message` handlers, store under
the host key. -/
def createNode (s : LinkState) (options : LinkNodeOptions) : LinkState :=
  let node : NodeRec :=
    { conn := nodeInit
        { gateway := options.gateway
          user := options.user
          shards := options.shards
          password := options.password
          reconnectInterval := none }
      listeners := true }
  { s with nodes := mapSet s.nodes options.host node }

/-- `removeNode(host)`: no-op for an unknown host; otherwise
`node.removeAllListeners()` and delete the registry entry.  Nothing touches
the node's pending reconnect timers — the source never calls `clearTimeout`
and `_reconnect` keeps no timer handle — so the object moves to `detached`
with its timers intact. -/
def removeNode (s : LinkState) (host : String) : LinkState :=
  match mapGet s.nodes host with
  | none => s
  | some node =>
      { s with
        nodes := mapDelete s.nodes host
        detached := s.detached ++ [{ node with listeners := false }] }

/-- The shape of the host client: whether `client.connections` and `client.ws`
are present.  `join`/`leave` pick their transport branch from these two
truthiness tests. -/
structure Client where
  hasConnections : Bool
  hasWs : Bool

/-- The argument of `join`: `{shard, host, op, d: {guild_id, channel_id, ...}}`.
The two ids are read off `data.d`; `d` is the raw payload forwarded over the
transport. -/
structure JoinData where
  shard : Nat
  host : String
  op : JVal
  guild_id : String
  channel_id : String
  d : JVal

/-- A call on the host transport: either `client.ws.send(data)` or the
shard-scoped `client.connections.get(shard).send(op, d)`. -/
inductive TransportSend where
  | wsSend (data : JoinData)
  | shardSend (shard : Nat) (op : JVal) (d : JVal)

/-- The argument of `spawnPlayer`. -/
structure SpawnData where
  host : String
  guild : String
  channel : String

/-- `spawnPlayer(data)`: if no player exists for the guild, construct one bound
to `this.nodes.get(data.host)` and store it; otherwise leave the map alone. -/
def spawnPlayer (s : LinkState) (data : SpawnData) (now : Nat) : LinkState :=
  match mapGet s.players data.guild with
  | some _ => s
  | none =>
      let player := LavaPlayer.init
        { node := (mapGet s.nodes data.host).map (fun _ => data.host)
          guild := data.guild
          channel := data.channel } now
      { s with players := mapSet s.players data.guild player }

/-- `join(data)`: look the player up first and **return it before any
transport send** when it exists; only when absent, forward the payload through
whichever client-shape branch applies and spawn the player.  The two `if`s are
sequential in the source but mutually exclusive. -/
def join (c : Client) (s : LinkState) (data : JoinData) (now : Nat) :
    LinkState × List TransportSend × Option LavaPlayer :=
  match mapGet s.players data.guild_id with
  | some player => (s, [], some player)
  | none =>
      let sd : SpawnData :=
        { host := data.host, guild := data.guild_id, channel := data.channel_id }
      let r1 :=
        if !c.hasConnections && c.hasWs then
          (spawnPlayer s sd now, [TransportSend.wsSend data])
        else (s, ([] : List TransportSend))
      let r2 :=
        if c.hasConnections && !c.hasWs then
          (spawnPlayer r1.1 sd now,
           r1.2 ++ [TransportSend.shardSend data.shard data.op data.d])
        else r1
      (r2.1, r2.2, none)

/-! ## Operation sequences over one player (for the state invariant) -/

/-- One invocation of a PlayerSession operation, with its inputs. -/
inductive PlayerOp where
  | connect (session : JVal) (event : JVal)
  | play (track : String) (options : List (String × JVal)) (now : Nat)
  | stop
  | pause (flag : Bool)
  | volume (v : JVal)
  | seek (position : JVal)
  | onEnd (message : JVal)
  | onException (message : JVal)
  | onStuck (message : JVal)

/-- Run one operation, keeping only the resulting player state. -/
def applyOp (p : LavaPlayer) : PlayerOp → LavaPlayer
  | .connect session event => (p.connect session event).player
  | .play track options now => (p.play track options now).player
  | .stop => p.stop.player
  | .pause flag => (p.pause flag).player
  | .volume v => (p.volume v).player
  | .seek position => (p.seek position).player
  | .onEnd message => (p.onEnd message).player
  | .onException message => (p.exception message).player
  | .onStuck message => (p.stuck message).player

/-- Run a sequence of operations in order. -/
def runOps (p : LavaPlayer) (ops : List PlayerOp) : LavaPlayer :=
  ops.foldl applyOp p

/-- The data-model invariant: `playing` is false whenever `track` is null. -/
def TrackInv (p : LavaPlayer) : Prop :=
  p.track = none → p.playing = false

instance (p : LavaPlayer) : Decidable (TrackInv p) := by
  unfold TrackInv; infer_instance

/-! ## Association-list lemmas for `jset`/`objAssign` and the registries -/

theorem jget_jset_same (fields : List (String × JVal)) (k : String) (v : JVal) :
    jget (jset fields k v) k = some v := by
  induction fields with
  | nil => simp [jset, jget]
  | cons kv rest ih =>
      obtain ⟨k', w⟩ := kv
      by_cases h : k' = k <;> simp [jset, jget, h, ih]

theorem jget_jset_other (fields : List (String × JVal)) (k k' : String)
    (v : JVal) (h : k ≠ k') :
    jget (jset fields k v) k' = jget fields k' := by
  induction fields with
  | nil => simp [jset, jget, h]
  | cons kv rest ih =>
      obtain ⟨k₀, w⟩ := kv
      by_cases h0 : k₀ = k <;> simp [jset, jget, h0, h, ih]

theorem jget_objAssign_notMem (base src : List (String × JVal)) (k : String)
    (h : ∀ kv ∈ src, kv.1 ≠ k) :
    jget (objAssign base src) k = jget base k := by
  induction src generalizing base with
  | nil => rfl
  | cons kv rest ih =>
      obtain ⟨k', v'⟩ := kv
      have hk : k' ≠ k := h (k', v') (by simp)
      have := ih (jset base k' v') (fun kv hkv => h kv (by simp [hkv]))
      simpa [objAssign, jget_jset_other base k' k v' hk] using this

/-- On a source without duplicate keys, `Object.assign` realizes the
override-read: a key found in the source wins; otherwise the base's value
survives. -/
theorem jget_objAssign (base src : List (String × JVal)) (k : String)
    (hnd : (src.map Prod.fst).Nodup) :
    jget (objAssign base src) k =
      match jget src k with
      | some v => some v
      | none => jget base k := by
  induction src generalizing base with
  | nil => rfl
  | cons kv rest ih =>
      obtain ⟨k', v'⟩ := kv
      simp only [List.map_cons, List.nodup_cons] at hnd
      by_cases h : k' = k
      · subst h
        have hnot : ∀ kv ∈ rest, kv.1 ≠ k' := by
          intro kv hkv heq
          exact hnd.1 (heq ▸ List.mem_map_of_mem Prod.fst hkv)
        simp only [objAssign, List.foldl_cons]
        have := jget_objAssign_notMem (jset base k' v') rest k' hnot
        simp only [objAssign] at this
        simp [this, jget_jset_same, jget]
      · simp only [objAssign, List.foldl_cons]
        have := ih (jset base k' v') hnd.2
        simp only [objAssign] at this
        simp [this, jget, h, jget_jset_other base k' k v' h]

theorem mapGet_mapSet_same {α : Type} (m : List (String × α)) (k : String)
    (v : α) : mapGet (mapSet m k v) k = some v := by
  induction m with
  | nil => simp [mapSet, mapGet]
  | cons kv rest ih =>
      obtain ⟨k', w⟩ := kv
      by_cases h : k' = k <;> simp [mapSet, mapGet, h, ih]

/-- Every player operation preserves the invariant. -/
theorem trackInv_applyOp (p : LavaPlayer) (op : PlayerOp) (h : TrackInv p) :
    TrackInv (applyOp p op) := by
  cases op with
  | connect session event => exact h
  | play track options now =>
      intro hc
      simp [applyOp, LavaPlayer.play] at hc
  | stop => intro _; rfl
  | pause flag =>
      simp only [applyOp, LavaPlayer.pause]
      split
      · exact h
      · intro hc; exact h hc
  | volume v => exact h
  | seek position => exact h
  | onEnd message =>
      simp only [applyOp, LavaPlayer.onEnd]
      split
      · exact h
      · intro _; rfl
  | onException message => exact h
  | onStuck message => intro _; rfl

theorem trackInv_runOps (p : LavaPlayer) (ops : List PlayerOp)
    (h : TrackInv p) : TrackInv (runOps p ops) := by
  induction ops generalizing p with
  | nil => exact h
  | cons op rest ih => exact ih (applyOp p op) (trackInv_applyOp p op h)

/-! ## Concrete sample states used by witnesses and counterexamples -/

/-- A freshly constructed player for guild `"g"` in channel `"c"`. -/
def pSample : LavaPlayer := LavaPlayer.init { node := none, guild := "g", channel := "c" } 0

/-- `pSample` after a track `"T"` started playing. -/
def pPlaying : LavaPlayer := { pSample with playing := true, track := some "T" }

/-- A TrackEndEvent whose reason is the lowercase `"replaced"`. -/
def endMsgLower : JVal :=
  .obj [("op", .str "event"), ("type", .str "TrackEndEvent"), ("reason", .str "replaced")]

/-- A TrackEndEvent whose reason is the uppercase `"REPLACED"` the code tests for. -/
def endMsgUpper : JVal :=
  .obj [("op", .str "event"), ("type", .str "TrackEndEvent"), ("reason", .str "REPLACED")]

/-- A TrackEndEvent with reason `"FINISHED"`. -/
def endMsgFinished : JVal :=
  .obj [("op", .str "event"), ("type", .str "TrackEndEvent"), ("reason", .str "FINISHED")]

/-- A parsed stats frame. -/
def statsFrame : JVal :=
  .obj [("op", .str "stats"), ("players", .num 3), ("playingPlayers", .num 1)]

/-- A parsed non-stats frame. -/
def eventFrame : JVal :=
  .obj [("op", .str "event"), ("guildId", .str "g"), ("type", .str "TrackEndEvent")]

/-- A NodeConnection as `createNode` builds it. -/
def connA : NodeState :=
  nodeInit { gateway := "localhost:2333", user := "u", shards := some 1,
             password := "pw", reconnectInterval := none }

/-- `connA` after its socket closed abnormally (code 1006): one reconnect
timer is pending. -/
def connAClosed : NodeState := (nodeClose connA 1006 "abnormal").1

/-- A router whose registry holds node `"a"` with that pending reconnect. -/
def linkS0 : LinkState :=
  { nodes := [("a", { conn := connAClosed, listeners := true })]
    detached := []
    players := [] }

/-- A router that already has a session for guild `"g"` and no nodes. -/
def linkWithPlayerG : LinkState :=
  { nodes := [], detached := [], players := [("g", pSample)] }

/-- A `join` request for guild `"g"` on host `"a"`, shard 0. -/
def joinG : JoinData :=
  { shard := 0
    host := "a"
    op := .num 4
    guild_id := "g"
    channel_id := "c"
    d := .obj [("guild_id", .str "g"), ("channel_id", .str "c")] }

/-- A host client of the `connections` shape (no `ws`). -/
def clientConn : Client := { hasConnections := true, hasWs := false }

/-- A node whose handle was released by a normal close (`this.ws === null`). -/
def connADisconnected : NodeState := (nodeClose connA 1000 "bye").1

/-! ## Claim C9 -/

/-- **C9**: for every player session and every sequence of session operations
starting from a freshly created session, `playing` is false whenever `track`
is null. -/
theorem C9_track_playing_invariant (options : PlayerOptions) (now : Nat)
    (ops : List PlayerOp) :
    TrackInv (runOps (LavaPlayer.init options now) ops) :=
  trackInv_runOps _ ops (fun _ => rfl)

/-- **C9** witness: the invariant evaluated after a concrete play/end run. -/
theorem C9_track_playing_invariant_witness :
    (runOps (LavaPlayer.init { node := none, guild := "g", channel := "c" } 0)
      [PlayerOp.play "T" [] 1, PlayerOp.onEnd endMsgFinished]).playing = false :=
  C9_track_playing_invariant { node := none, guild := "g", channel := "c" } 0
    [PlayerOp.play "T" [] 1, PlayerOp.onEnd endMsgFinished] rfl

/-! ## Claim C7 -/

/-- **C7**: `stuck(message)` produces exactly one outbound stop command —
clearing the session's `playing` flag and `track` — followed by exactly one
end signal carrying the original unmodified message. -/
theorem C7_stuck_stop_then_end (p : LavaPlayer) (message : JVal) :
    p.stuck message =
      { player := { p with playing := false, track := none }
        sent := [.obj [("op", .str "stop"), ("guildId", .str p.guild)]]
        signals := [.endSig message] } := rfl

/-! ## Claim C6 -/

/-- **C6**: `pause(flag)` is a no-op (no message, no state change) when the
flag equals the current `paused` state, otherwise sends exactly one pause
message carrying the flag and updates `paused`; hence repeated `pause(true)`
from an unpaused state sends exactly one pause command and leaves `paused`
true. -/
theorem C6_pause_idempotent (p : LavaPlayer) (flag : Bool) :
    (flag = p.paused →
      p.pause flag = { player := p, sent := [], signals := [] }) ∧
    (flag ≠ p.paused →
      p.pause flag =
        { player := { p with paused := flag }
          sent := [.obj [("op", .str "pause"), ("guildId", .str p.guild),
                         ("pause", .bool flag)]]
          signals := [] }) ∧
    (p.paused = false →
      (p.pause true).sent =
        [.obj [("op", .str "pause"), ("guildId", .str p.guild),
               ("pause", .bool true)]] ∧
      ((p.pause true).player.pause true).sent = [] ∧
      ((p.pause true).player.pause true).player.paused = true) := by
  refine ⟨?_, ?_, ?_⟩
  · intro h; subst h; simp [LavaPlayer.pause]
  · intro h
    cases hf : flag <;> cases hq : p.paused <;>
      simp [hf, hq] at h ⊢ <;> simp [LavaPlayer.pause, hq]
  · intro h0
    refine ⟨?_, ?_, ?_⟩ <;> simp [LavaPlayer.pause, h0]

/-- **C6** witness: on a fresh (unpaused) player, `pause(false)` is a no-op and
the double `pause(true)` run sends exactly one pause command. -/
theorem C6_pause_idempotent_witness :
    (pSample.pause false = { player := pSample, sent := [], signals := [] }) ∧
    ((pSample.pause true).sent =
      [.obj [("op", .str "pause"), ("guildId", .str "g"),
             ("pause", .bool true)]] ∧
     ((pSample.pause true).player.pause true).sent = [] ∧
     ((pSample.pause true).player.pause true).player.paused = true) :=
  ⟨(C6_pause_idempotent pSample false).1 rfl,
   (C6_pause_idempotent pSample true).2.2 rfl⟩

/-! ## Claim C4 -/

/-- **C4** counterexample: `onEnd` with reason `"replaced"` — the exact
lowercase string the claim names — *clears* `playing` and `track`, because the
sentinel in the source is the uppercase `"REPLACED"`; the claim's "leaves the
fields unchanged" fails at this input. -/
theorem C4_counterexample :
    pPlaying.playing = true ∧ pPlaying.track = some "T" ∧
    (pPlaying.onEnd endMsgLower).player.playing = false ∧
    (pPlaying.onEnd endMsgLower).player.track = none :=
  ⟨rfl, rfl, rfl, rfl⟩

/-- **C4** amended: with the sentinel spelled as in the source (`"REPLACED"`),
`onEnd` leaves `playing`/`track` unchanged exactly when `message.reason` is
that sentinel and clears both for every other reason; in both cases it emits
exactly one end signal carrying the message and sends nothing. -/
theorem C4_onEnd_replaced (p : LavaPlayer) (message : JVal) :
    (jprop message "reason" = some (.str "REPLACED") →
      (p.onEnd message).player = p) ∧
    (jprop message "reason" ≠ some (.str "REPLACED") →
      (p.onEnd message).player = { p with playing := false, track := none }) ∧
    (p.onEnd message).signals = [.endSig message] ∧
    (p.onEnd message).sent = [] := by
  refine ⟨?_, ?_, rfl, rfl⟩
  · intro h; simp [LavaPlayer.onEnd, h]
  · intro h
    simp only [LavaPlayer.onEnd]

/-- **C4** witness: the amended dichotomy evaluated on a playing session, for
an uppercase-`REPLACED` end message and a `finished`-style one. -/
theorem C4_onEnd_replaced_witness :
    (pPlaying.onEnd endMsgUpper).player = pPlaying ∧
    (pPlaying.onEnd endMsgFinished).player =
      { pPlaying with playing := false, track := none } :=
  ⟨(C4_onEnd_replaced pPlaying endMsgUpper).1 rfl,
   (C4_onEnd_replaced pPlaying endMsgFinished).2.1
     (by simp [endMsgFinished, jprop, jget])⟩

/-! ## Claim C5 -/

/-- **C5**: a close with code 1000 never triggers a reconnect — readiness is
cleared, the handle is released, one terminal disconnect signal is emitted and
no timer is scheduled; a close with any other code schedules exactly one
reconnect timer after the configured interval (default 10000 ms), and when
that timer fires it emits `reconnecting` and re-opens the socket. -/
theorem C5_close_reconnect (s : NodeState) (code : Int) (reason : String) :
    (code = 1000 →
      nodeClose s code reason =
        ({ s with ready := false, wsPresent := false },
         [.disconnect reason])) ∧
    (code ≠ 1000 →
      nodeClose s code reason =
        ({ s with
            ready := false
            reconnectTimers := s.reconnectTimers ++ [s.reconnectInterval] },
         []) ∧
      (fireReconnectTimer (nodeClose s code reason).1).2 = [.reconnecting] ∧
      (fireReconnectTimer (nodeClose s code reason).1).1.wsPresent = true) ∧
    (∀ options : NodeOptions, options.reconnectInterval = none →
      (nodeInit options).reconnectInterval = 10000) := by
  refine ⟨?_, ?_, ?_⟩
  · intro h; simp [nodeClose, h]
  · intro h
    refine ⟨?_, ?_, ?_⟩ <;>
      simp [nodeClose, nodeReconnect, fireReconnectTimer, nodeConnectWS, h]
  · intro options h; simp [nodeInit, nodeConnectWS, jsOrNat, h]

/-- **C5** witness: both close outcomes evaluated on a concrete connection,
plus the 10000 ms default. -/
theorem C5_close_reconnect_witness :
    nodeClose connA 1000 "bye" =
      ({ connA with ready := false, wsPresent := false },
       [.disconnect "bye"]) ∧
    nodeClose connA 1006 "abnormal" =
      ({ connA with
          ready := false
          reconnectTimers := connA.reconnectTimers ++ [connA.reconnectInterval] },
       []) ∧
    connA.reconnectInterval = 10000 :=
  ⟨(C5_close_reconnect connA 1000 "bye").1 rfl,
   ((C5_close_reconnect connA 1006 "abnormal").2.1 (by decide)).1,
   (C5_close_reconnect connA 1006 "abnormal").2.2
     { gateway := "localhost:2333", user := "u", shards := some 1,
       password := "pw", reconnectInterval := none } rfl⟩

/-! ## Claim C8 -/

/-- **C8** counterexample: a parsed `stats` frame *is* forwarded as a message
signal — the source has no `else` between the stats assignment and the emit —
contradicting the claim that a stats payload is not forwarded. -/
theorem C8_counterexample :
    (nodeMessage connA (.parsed statsFrame)).2 = [.message statsFrame] ∧
    (nodeMessage connA (.parsed statsFrame)).1.stats = statsFrame :=
  ⟨rfl, rfl⟩

/-- **C8** amended: for every successfully parsed (truthy) frame, a `stats`
operation tag replaces the statistics snapshot wholesale **and** the payload
is also forwarded verbatim as a message signal; any other payload is forwarded
verbatim with the snapshot unchanged. -/
theorem C8_message_dispatch (s : NodeState) (data : JVal)
    (ht : jtruthy data = true) :
    (jprop data "op" = some (.str "stats") →
      nodeMessage s (.parsed data) =
        ({ s with stats := data }, [.message data])) ∧
    (jprop data "op" ≠ some (.str "stats") →
      nodeMessage s (.parsed data) = (s, [.message data])) := by
  constructor
  · intro h; simp [nodeMessage, ht, h]
  · intro h; simp only [nodeMessage, ht, if_true]

/-- **C8** witness: the dispatch evaluated on a concrete stats frame and a
concrete event frame. -/
theorem C8_message_dispatch_witness :
    nodeMessage connA (.parsed statsFrame) =
      ({ connA with stats := statsFrame }, [.message statsFrame]) ∧
    nodeMessage connA (.parsed eventFrame) = (connA, [.message eventFrame]) :=
  ⟨(C8_message_dispatch connA statsFrame rfl).1 rfl,
   (C8_message_dispatch connA eventFrame rfl).2
     (by simp [eventFrame, jprop, jget])⟩

/-! ## Claim C3 -/

/-- **C3** counterexample: `send` on a NodeConnection whose handle is absent
(`this.ws === null`, as after a normal close) reaches `this.ws.send(payload)`
with no null check and throws a synchronous TypeError — it is not a silent
no-op, so not every public operation is synchronously throw-free. -/
theorem C3_counterexample :
    connADisconnected.wsPresent = false ∧
    (nodeSend connADisconnected
      (.obj [("op", .str "stop"), ("guildId", .str "g")])).2.2 =
      SendResult.threw :=
  ⟨rfl, rfl⟩

/-- **C3** amended: `send` with a present handle serializes and forwards the
message with no signals and no state change; with an absent handle it throws a
synchronous TypeError (sending nothing and changing no state) rather than
silently no-oping. -/
theorem C3_send_null_handle (s : NodeState) (data : JVal) :
    (s.wsPresent = true → nodeSend s data = (s, [], .sent data)) ∧
    (s.wsPresent = false → nodeSend s data = (s, [], .threw)) := by
  constructor <;> intro h <;> simp [nodeSend, h]

/-- **C3** witness: both branches of `send` evaluated on concrete
connections. -/
theorem C3_send_null_handle_witness :
    nodeSend connA statsFrame = (connA, [], .sent statsFrame) ∧
    nodeSend connADisconnected statsFrame =
      (connADisconnected, [], .threw) :=
  ⟨(C3_send_null_handle connA statsFrame).1 rfl,
   (C3_send_null_handle connADisconnected statsFrame).2 rfl⟩

/-! ## Claim C2 -/

/-- **C2**: the source never calls `clearTimeout` and `_reconnect` keeps no
timer handle, so `removeNode` cannot cancel a pending reconnect: at the
failing input (node `"a"` registered, abnormal close scheduled a reconnect,
then `removeNode("a")`) the registry entry is gone but the connection object
survives with its timer pending, and firing the timer emits `reconnecting`
and re-opens the removed connection.  The unknown-host no-op half of the
claim does hold. -/
theorem C2_reconnect_survives_removal :
    removeNode linkS0 "unknown" = linkS0 ∧
    (removeNode linkS0 "a").nodes = [] ∧
    (removeNode linkS0 "a").detached =
      [{ conn := connAClosed, listeners := false }] ∧
    connAClosed.reconnectTimers = [10000] ∧
    (fireReconnectTimer connAClosed).2 = [.reconnecting] ∧
    (fireReconnectTimer connAClosed).1.wsPresent = true :=
  ⟨rfl, rfl, rfl, rfl, rfl, rfl⟩

/-! ## Claim C1 -/

/-- **C1** counterexample: `join` for a guild that already has a session
returns that session with **no** transport send and no state change — the
source returns the player before reaching either forwarding branch — refuting
the claim that the join payload is forwarded on every call. -/
theorem C1_counterexample :
    join clientConn linkWithPlayerG joinG 5 =
      (linkWithPlayerG, [], some pSample) := rfl

/-- **C1** amended: when a session already exists for the guild, `join`
returns it unchanged, creates no session and performs **no** transport
forward; only when no session exists does it forward the join payload through
the matching client-shape branch (shard-scoped send for a `connections`
client, raw `ws.send` for a `ws` client) and lazily create the session. -/
theorem C1_join_existing_no_forward (c : Client) (s : LinkState)
    (d : JoinData) (now : Nat) :
    (∀ p, mapGet s.players d.guild_id = some p →
      join c s d now = (s, [], some p)) ∧
    (mapGet s.players d.guild_id = none → c.hasConnections = true →
      c.hasWs = false →
      join c s d now =
        (spawnPlayer s
          { host := d.host, guild := d.guild_id, channel := d.channel_id } now,
         [.shardSend d.shard d.op d.d], none)) ∧
    (mapGet s.players d.guild_id = none → c.hasConnections = false →
      c.hasWs = true →
      join c s d now =
        (spawnPlayer s
          { host := d.host, guild := d.guild_id, channel := d.channel_id } now,
         [.wsSend d], none)) ∧
    (mapGet s.players d.guild_id = none →
      mapGet (spawnPlayer s
        { host := d.host, guild := d.guild_id, channel := d.channel_id }
        now).players d.guild_id =
        some (LavaPlayer.init
          { node := (mapGet s.nodes d.host).map (fun _ => d.host)
            guild := d.guild_id, channel := d.channel_id } now)) := by
  refine ⟨?_, ?_, ?_, ?_⟩
  · intro p hp; simp [join, hp]
  · intro hn hc hw; simp [join, hn, hc, hw]
  · intro hn hc hw; simp [join, hn, hc, hw]
  · intro hn; simp [spawnPlayer, hn, mapGet_mapSet_same]

/-- **C1** witness: both the existing-session early return and the
session-absent forwarding branch, evaluated concretely. -/
theorem C1_join_existing_no_forward_witness :
    join clientConn linkWithPlayerG joinG 7 =
      (linkWithPlayerG, [], some pSample) ∧
    join clientConn linkS0 joinG 5 =
      (spawnPlayer linkS0 { host := "a", guild := "g", channel := "c" } 5,
       [.shardSend 0 (.num 4) joinG.d], none) ∧
    mapGet (spawnPlayer linkS0
      { host := "a", guild := "g", channel := "c" } 5).players "g" =
      some (LavaPlayer.init
        { node := some "a", guild := "g", channel := "c" } 5) :=
  ⟨(C1_join_existing_no_forward clientConn linkWithPlayerG joinG 7).1
     pSample rfl,
   (C1_join_existing_no_forward clientConn linkS0 joinG 5).2.1 rfl rfl rfl,
   (C1_join_existing_no_forward clientConn linkS0 joinG 5).2.2.2 rfl⟩

/-! ## Claim C10 -/

/-- **C10**: the outbound play message is built by overriding the base fields
`{op:"play", guildId, track}` with the fields of `options` — a key present in
`options` wins, a key absent falls back to the base — so an options object
carrying an `"op"`, `"guildId"` or `"track"` key makes the sent message's
operation tag, guild id or track differ from the session's own values. -/
theorem C10_play_override (p : LavaPlayer) (track : String)
    (options : List (String × JVal)) (now : Nat)
    (hnd : (options.map Prod.fst).Nodup) :
    ((p.play track options now).sent =
      [.obj (objAssign [("op", .str "play"), ("guildId", .str p.guild),
                        ("track", .str track)] options)]) ∧
    (∀ k, jget (objAssign [("op", .str "play"), ("guildId", .str p.guild),
                           ("track", .str track)] options) k =
      match jget options k with
      | some v => some v
      | none => jget [("op", .str "play"), ("guildId", .str p.guild),
                      ("track", .str track)] k) ∧
    ((p.play track [("op", .str "hijacked")] now).sent =
      [.obj [("op", .str "hijacked"), ("guildId", .str p.guild),
             ("track", .str track)]]) ∧
    ((p.play track [("guildId", .str "other"), ("track", .str "T2")] now).sent =
      [.obj [("op", .str "play"), ("guildId", .str "other"),
             ("track", .str "T2")]]) := by
  refine ⟨rfl, fun k => jget_objAssign _ options k hnd, ?_, ?_⟩ <;>
    simp [LavaPlayer.play, objAssign, jset]

/-- **C10** witness: the override evaluated with a concrete options object
that hijacks the operation tag. -/
theorem C10_play_override_witness :
    ((pSample.play "T" [("op", .str "hijacked")] 1).sent =
      [.obj (objAssign [("op", .str "play"), ("guildId", .str "g"),
                        ("track", .str "T")] [("op", .str "hijacked")])]) ∧
    jget (objAssign [("op", .str "play"), ("guildId", .str "g"),
                     ("track", .str "T")] [("op", .str "hijacked")]) "op" =
      some (.str "hijacked") := by
  have h := C10_play_override pSample "T" [("op", .str "hijacked")] 1 (by simp)
  exact ⟨h.1, h.2.1 "op"⟩

end Voice
